import Mathlib

/-!
Shallow embedding of the run-termination control plane of this repository.

The main source is
`js_modules/dagit/packages/core/src/runs/TerminationDialog.tsx`, which is
embedded directly below (`refineToError`, `initializeState`,
`terminationDialogReducer`, `mutate`).  JS objects keyed by run id are
modelled as association lists in insertion order (`Object.keys` enumerates
string keys in insertion order), and the object-spread update
`\x7b...errors, [id]: e\x7d` is modelled by `setKey`.

The Concurrency Ledger and the Retention Sweeper are documented in
`docs/content/deployment/dagster-instance.mdx` but their implementations are
not part of the reviewed sources; they are modelled from the specification
text and marked as such in their doc comments, as is the backend `terminate`
resolver behind the dialog's GraphQL mutation.
-/

namespace Dagster

/-- `TerminateRunPolicy` from `graphql/types`, as used by the dialog. -/
inductive TerminateRunPolicy where
  | SAFE_TERMINATE
  | MARK_AS_CANCELED_IMMEDIATELY
deriving DecidableEq, Repr

/-- The payload of `terminatePipelineExecution`; the dialog only ever
inspects its `__typename` discriminant. -/
structure TerminatePipelineExecution where
  typename : String
deriving DecidableEq, Repr

/-- The `TerminateMutation` result shape: `data.terminatePipelineExecution`. -/
structure TerminateMutation where
  terminatePipelineExecution : TerminatePipelineExecution
deriving DecidableEq, Repr

/-- `refineToError` (TerminationDialog.tsx, lines 32 to 37).  The JS function
throws `ErrorEvent('Not an error!')` when the typename is
`TerminateRunSuccess`; the throw is modelled as `Except.error`.  A `null` or
`undefined` argument falls through the guard (optional chaining) and is
returned as `undefined`, modelled by `none`. -/
def refineToError (data : Option TerminateMutation) :
    Except String (Option TerminatePipelineExecution) :=
  match data with
  | some d =>
      if d.terminatePipelineExecution.typename == "TerminateRunSuccess" then
        Except.error "Not an error!"
      else
        Except.ok (some d.terminatePipelineExecution)
  | none => Except.ok none

/-- The dialog's `Error` type: `ReturnType<typeof refineToError> | undefined`,
i.e. a non-success payload or `undefined`. -/
abbrev Error := Option TerminatePipelineExecution

/-- `TerminationState = \x7bcompleted: number; errors: \x7b[id: string]: Error\x7d\x7d`. -/
structure TerminationState where
  completed : Nat
  errors : List (String × Error)
deriving DecidableEq, Repr

/-- The dialog's `step` field. -/
inductive Step where
  | initial
  | terminating
  | completed
deriving DecidableEq, Repr

/-- `SelectedRuns`: a map from run id to its `canTerminate` value, modelled
as an association list in insertion order. -/
abbrev SelectedRuns := List (String × Bool)

/-- `TerminationDialogState` (TerminationDialog.tsx, lines 43 to 48). -/
structure TerminationDialogState where
  mustForce : Bool
  frozenRuns : SelectedRuns
  step : Step
  termination : TerminationState
deriving DecidableEq, Repr

/-- `initializeState` (TerminationDialog.tsx, lines 52 to 60):
`mustForce` is `!Object.keys(selectedRuns).some((id) => selectedRuns[id])`. -/
def initializeState (selectedRuns : SelectedRuns) : TerminationDialogState :=
  { mustForce := !(selectedRuns.any fun p => p.2)
    frozenRuns := selectedRuns
    step := Step.initial
    termination := { completed := 0, errors := [] } }

/-- `TerminationDialogAction` (TerminationDialog.tsx, lines 62 to 68). -/
inductive TerminationDialogAction where
  | reset (frozenRuns : SelectedRuns)
  | toggleForceTerminate (checked : Bool)
  | start
  | terminationSuccess
  | terminationError (id : String) (error : Error)
  | complete
deriving DecidableEq, Repr

/-- JS object-spread update `\x7b...m, [k]: v\x7d`: an existing key keeps its
position and gets the new value, a new key is appended. -/
def setKey {α : Type} : List (String × α) → String → α → List (String × α)
  | [], k, v => [(k, v)]
  | p :: rest, k, v => if p.1 == k then (k, v) :: rest else p :: setKey rest k v

/-- JS object lookup `m[k]`, `undefined` when absent. -/
def getKey {α : Type} : List (String × α) → String → Option α
  | [], _ => none
  | p :: rest, k => if p.1 == k then some p.2 else getKey rest k

/-- `terminationDialogReducer` (TerminationDialog.tsx, lines 70 to 104). -/
def terminationDialogReducer (prevState : TerminationDialogState)
    (action : TerminationDialogAction) : TerminationDialogState :=
  match action with
  | .reset frozenRuns => initializeState frozenRuns
  | .toggleForceTerminate checked => { prevState with mustForce := checked }
  | .start => { prevState with step := Step.terminating }
  | .terminationSuccess =>
      { prevState with
        step := Step.terminating
        termination :=
          { prevState.termination with
            completed := prevState.termination.completed + 1 } }
  | .terminationError id error =>
      { prevState with
        step := Step.terminating
        termination :=
          { completed := prevState.termination.completed + 1
            errors := setKey prevState.termination.errors id error } }
  | .complete => { prevState with step := Step.completed }

/-- The render-level `policy` constant (TerminationDialog.tsx, lines 139 to
141), computed from `state.mustForce`. -/
def policy (state : TerminationDialogState) : TerminateRunPolicy :=
  if state.mustForce then TerminateRunPolicy.MARK_AS_CANCELED_IMMEDIATELY
  else TerminateRunPolicy.SAFE_TERMINATE

/-- The loop guard in `mutate` (line 151):
`data?.terminatePipelineExecution.__typename === 'TerminateRunSuccess'`. -/
def isTerminateRunSuccess (data : Option TerminateMutation) : Bool :=
  match data with
  | some d => d.terminatePipelineExecution.typename == "TerminateRunSuccess"
  | none => false

/-- One iteration of the `mutate` loop body (lines 151 to 155): decide which
action is dispatched for `data`.  The else branch calls `refineToError`,
whose potential throw propagates as `Except.error`. -/
def terminateStep (runId : String) (data : Option TerminateMutation) :
    Except String TerminationDialogAction :=
  if isTerminateRunSuccess data then
    Except.ok TerminationDialogAction.terminationSuccess
  else
    (refineToError data).map fun e => TerminationDialogAction.terminationError runId e

/-- The sequential `for` loop of `mutate` (lines 147 to 156): each backend
call `terminate(\x7brunId, terminatePolicy: policy\x7d)` is awaited, its
dispatched action is applied to the reducer state, and the loop moves to the
next run id.  Returns the reducer state after the loop together with the
trace of backend calls `(runId, policy)` in issue order. -/
def mutateLoop (pol : TerminateRunPolicy)
    (terminate : String → TerminateRunPolicy → Option TerminateMutation)
    (runList : List String) (rs : TerminationDialogState) :
    Except String (TerminationDialogState × List (String × TerminateRunPolicy)) :=
  match runList with
  | [] => Except.ok (rs, [])
  | runId :: rest => do
      let action ← terminateStep runId (terminate runId pol)
      let out ← mutateLoop pol terminate rest (terminationDialogReducer rs action)
      Except.ok (out.1, (runId, pol) :: out.2)

/-- `mutate` (TerminationDialog.tsx, lines 143 to 160).  `state` is the
render state captured by the closure when the operator clicks the button.
Dispatches `start`, loops over `Object.keys(state.frozenRuns)`, dispatches
`complete`, then calls `onComplete(state.termination)`.  Because `state` is
the closure-captured binding (dispatch never mutates it), the argument given
to `onComplete` is the captured `state.termination`, returned here as the
third component; the first component is the reducer state after all
dispatches and the second is the backend call trace. -/
def mutate (state : TerminationDialogState)
    (terminate : String → TerminateRunPolicy → Option TerminateMutation) :
    Except String
      (TerminationDialogState × List (String × TerminateRunPolicy) × TerminationState) := do
  let out ← mutateLoop (policy state) terminate (state.frozenRuns.map Prod.fst)
    (terminationDialogReducer state TerminationDialogAction.start)
  Except.ok (terminationDialogReducer out.1 TerminationDialogAction.complete,
    out.2, state.termination)

/-- The value `refineToError` returns when it does not throw:
`data?.terminatePipelineExecution`. -/
def errorValue (data : Option TerminateMutation) : Error :=
  match data with
  | some d => some d.terminatePipelineExecution
  | none => none

/-- Total description of the action dispatched by one `mutate` loop
iteration. -/
def terminateAction (runId : String) (data : Option TerminateMutation) :
    TerminationDialogAction :=
  if isTerminateRunSuccess data then TerminationDialogAction.terminationSuccess
  else TerminationDialogAction.terminationError runId (errorValue data)

/-- The action dispatched for run `runId` when the backend is `terminate`
and the batch policy is `pol`. -/
def loopAction (pol : TerminateRunPolicy)
    (terminate : String → TerminateRunPolicy → Option TerminateMutation)
    (runId : String) : TerminationDialogAction :=
  terminateAction runId (terminate runId pol)

/-- The reducer state after the `mutate` loop has processed `runList`. -/
def loopFold (pol : TerminateRunPolicy)
    (terminate : String → TerminateRunPolicy → Option TerminateMutation)
    (runList : List String) (rs : TerminationDialogState) : TerminationDialogState :=
  runList.foldl (fun s runId => terminationDialogReducer s (loopAction pol terminate runId)) rs

/-- Discriminates the `reset` action of the dialog reducer. -/
def isResetAction : TerminationDialogAction → Bool
  | .reset _ => true
  | _ => false

/-- How much a single reducer action adds to `termination.completed`:
one for `termination-success` and `termination-error`, zero otherwise. -/
def completedIncrement : TerminationDialogAction → Nat
  | .terminationSuccess => 1
  | .terminationError _ _ => 1
  | _ => 0

/-- Run statuses from the data model of the spec. -/
inductive RunStatus where
  | QUEUED
  | STARTING
  | STARTED
  | SUCCESS
  | FAILURE
  | CANCELING
  | CANCELED
deriving DecidableEq, Repr

/-- Terminal statuses of the run lifecycle. -/
def RunStatus.isTerminal : RunStatus → Bool
  | .SUCCESS => true
  | .FAILURE => true
  | .CANCELED => true
  | _ => false

/-- A mutation result whose typename is `TerminateRunSuccess`. -/
def terminateRunSuccessData : TerminateMutation :=
  { terminatePipelineExecution := { typename := "TerminateRunSuccess" } }

/-- Modelled from the spec: the backend `terminate` resolver (Run Launcher
side of the GraphQL mutation) is not part of the reviewed sources; only its
dialog-side caller is.  Per the spec, a termination request for a run that
has already reached a terminal status is surfaced as a no-op success
("`terminate` on a run already in SUCCESS returns success (no error)", "an
`AlreadyTerminalError` is recorded as success"), so for a terminal run the
mutation result has typename `TerminateRunSuccess`; the behavior on live
runs is an arbitrary parameter `live`. -/
def backendTerminate (statusOf : String → RunStatus)
    (live : String → TerminateRunPolicy → Option TerminateMutation)
    (runId : String) (pol : TerminateRunPolicy) : Option TerminateMutation :=
  if (statusOf runId).isTerminal then some terminateRunSuccessData
  else live runId pol

/-- Tick types subject to retention, from the docs `retention` key:
`purge_after_days` maps `skipped`, `failure`, `success`. -/
inductive TickStatusKey where
  | skipped
  | failure
  | success
deriving DecidableEq, Repr

/-- The accepted shapes of `purge_after_days`: a single integer applying to
all tick types, or a mapping of tick types to integers. -/
inductive PurgeAfterDays where
  | scalar (days : Int)
  | perType (skipped failure success : Int)
deriving DecidableEq, Repr

/-- Modelled from the spec: normalization of a retention policy (docs "Data
retention"): a scalar applies to every tick type; a mapping is read per
type. -/
def normalizeRetention : PurgeAfterDays → TickStatusKey → Int
  | .scalar d, _ => d
  | .perType s _ _, .skipped => s
  | .perType _ f _, .failure => f
  | .perType _ _ su, .success => su

/-- Modelled from the spec: the Retention Sweeper (daemon code, not part of
the reviewed sources) "deletes Tick records whose age exceeds the configured
per-type threshold; a threshold of -1 for a type means that type is
exempt". -/
def shouldPurgeTick (p : PurgeAfterDays) (t : TickStatusKey) (ageDays : Int) : Bool :=
  if normalizeRetention p t = -1 then false
  else decide (ageDays > normalizeRetention p t)

/-- One `tag_concurrency_limits` entry of the QueuedRunCoordinator
configuration: tag key, optional tag value, integer limit. -/
structure TagConcurrencyLimitEntry where
  key : String
  value : Option String
  limit : Nat
deriving DecidableEq, Repr

/-- The QueuedRunCoordinator concurrency configuration from the docs:
`max_concurrent_runs` and `tag_concurrency_limits`. -/
structure QueuedRunCoordinatorConfig where
  max_concurrent_runs : Nat
  tag_concurrency_limits : List TagConcurrencyLimitEntry
deriving DecidableEq, Repr

/-- The Concurrency Ledger counters: the global active-run count and one
counter per configured tag limit entry (positionally aligned with
`tag_concurrency_limits`). -/
structure LedgerCounters where
  globalCount : Nat
  tagCounts : List Nat
deriving DecidableEq, Repr

/-- Whether a tag limit entry applies to a run with the given tags: the run
carries a tag with the entry's key and, when the entry fixes a value, that
value. -/
def limitApplies (entry : TagConcurrencyLimitEntry) (tags : List (String × String)) : Bool :=
  tags.any fun t =>
    t.1 == entry.key &&
      (match entry.value with
       | none => true
       | some v => t.2 == v)

/-- The admission check of `reserve`: every applicable counter, and the
global counter, still fits under its limit after incrementing. -/
def reserveFits (config : QueuedRunCoordinatorConfig) (st : LedgerCounters)
    (tags : List (String × String)) : Bool :=
  decide (st.globalCount + 1 ≤ config.max_concurrent_runs) &&
    (config.tag_concurrency_limits.zip st.tagCounts).all fun p =>
      !(limitApplies p.1 tags) || decide (p.2 + 1 ≤ p.1.limit)

/-- Modelled from the spec: the Concurrency Ledger implementation (the
QueuedRunCoordinator daemon) is not part of the reviewed sources; the docs
only give its configuration.  Per the spec, `reserve(run)` "attempts to
atomically increment all counters applicable to run's tags and the global
counter; succeeds only if none of the post-increment values would exceed
their configured limits, otherwise no counters are mutated and the call
returns false": all limits are evaluated first, and only then are all
counters committed in one step. -/
def reserve (config : QueuedRunCoordinatorConfig) (st : LedgerCounters)
    (tags : List (String × String)) : Bool × LedgerCounters :=
  if reserveFits config st tags then
    (true,
     { globalCount := st.globalCount + 1
       tagCounts := (config.tag_concurrency_limits.zip st.tagCounts).map
         fun p => if limitApplies p.1 tags then p.2 + 1 else p.2 })
  else (false, st)

/-- A backend that answers every terminate call with no data. -/
def exTerminateNone : String → TerminateRunPolicy → Option TerminateMutation :=
  fun _ _ => none

/-- A mutation result whose typename is not `TerminateRunSuccess`. -/
def exFailureData : TerminateMutation :=
  { terminatePipelineExecution := { typename := "TerminateRunFailure" } }

/-- A backend that refuses every terminate call. -/
def exTerminateFail : String → TerminateRunPolicy → Option TerminateMutation :=
  fun _ _ => some exFailureData

/-- Dialog state for a one-run batch whose run cannot safe-terminate. -/
def exState1 : TerminationDialogState := initializeState [("a", false)]

/-- The reducer state after `mutate` on `exState1` with `exTerminateNone`. -/
def exFin1 : TerminationDialogState :=
  { mustForce := true
    frozenRuns := [("a", false)]
    step := Step.completed
    termination := { completed := 1, errors := [("a", none)] } }

/-- Dialog state for a one-run batch whose run can safe-terminate. -/
def exState2 : TerminationDialogState := initializeState [("b", true)]

/-- The reducer state after `mutate` on `exState2` with `exTerminateFail`. -/
def exFin2 : TerminationDialogState :=
  { mustForce := false
    frozenRuns := [("b", true)]
    step := Step.completed
    termination :=
      { completed := 1
        errors := [("b", some exFailureData.terminatePipelineExecution)] } }

/-- A status oracle under which every run has already reached SUCCESS. -/
def exStatusTerminal : String → RunStatus := fun _ => RunStatus.SUCCESS

/-- The reducer state after `mutate` on a one-run batch of an
already-terminal run. -/
def exFin3 : TerminationDialogState :=
  { mustForce := true
    frozenRuns := [("s", false)]
    step := Step.completed
    termination := { completed := 1, errors := [] } }

/-- A ledger configuration with global limit 1 and one tag limit. -/
def exConfig : QueuedRunCoordinatorConfig :=
  { max_concurrent_runs := 1
    tag_concurrency_limits := [{ key := "database", value := some "redshift", limit := 4 }] }

/-- Ledger counters already at the global limit. -/
def exCounters : LedgerCounters := { globalCount := 1, tagCounts := [0] }

/-- Tags of a run matching the configured tag limit. -/
def exTags : List (String × String) := [("database", "redshift")]

theorem terminateStep_eq_ok (runId : String) (data : Option TerminateMutation) :
    terminateStep runId data = Except.ok (terminateAction runId data) := by
  cases data with
  | none => rfl
  | some d =>
      unfold terminateStep terminateAction refineToError isTerminateRunSuccess errorValue
      by_cases h : d.terminatePipelineExecution.typename = "TerminateRunSuccess" <;>
        simp [h, Except.map]

theorem mutateLoop_eq_ok (pol : TerminateRunPolicy)
    (terminate : String → TerminateRunPolicy → Option TerminateMutation)
    (runList : List String) (rs : TerminationDialogState) :
    mutateLoop pol terminate runList rs =
      Except.ok (loopFold pol terminate runList rs,
        runList.map fun runId => (runId, pol)) := by
  induction runList generalizing rs with
  | nil => rfl
  | cons runId rest ih =>
      unfold mutateLoop
      rw [terminateStep_eq_ok]
      simp only [bind, Except.bind, ih, loopFold, List.foldl_cons, List.map_cons,
        loopAction]

theorem mutate_eq_ok (state : TerminationDialogState)
    (terminate : String → TerminateRunPolicy → Option TerminateMutation) :
    mutate state terminate =
      Except.ok
        (terminationDialogReducer
          (loopFold (policy state) terminate (state.frozenRuns.map Prod.fst)
            (terminationDialogReducer state TerminationDialogAction.start))
          TerminationDialogAction.complete,
         state.frozenRuns.map (fun p => (p.1, policy state)),
         state.termination) := by
  unfold mutate
  rw [mutateLoop_eq_ok]
  simp only [bind, Except.bind, List.map_map]
  rfl

theorem getKey_setKey_self {α : Type} (m : List (String × α)) (k : String) (v : α) :
    getKey (setKey m k v) k = some v := by
  induction m with
  | nil => simp [setKey, getKey]
  | cons p rest ih =>
      by_cases h : p.1 = k
      · simp [setKey, getKey, h]
      · simp [setKey, getKey, h, ih]

theorem getKey_setKey_ne {α : Type} (m : List (String × α)) (k k' : String) (v : α)
    (h : k' ≠ k) : getKey (setKey m k v) k' = getKey m k' := by
  induction m with
  | nil => simp [setKey, getKey, Ne.symm h]
  | cons p rest ih =>
      by_cases hp : p.1 = k
      · simp [setKey, getKey, hp, Ne.symm h]
      · by_cases hp' : p.1 = k'
        · simp [setKey, getKey, hp, hp', h]
        · simp [setKey, getKey, hp, hp', ih]

/-- The reducer leaves `errors` unchanged on a `terminationSuccess`
dispatch, and `setKey`-updates it on a `terminationError` dispatch; hence a
recorded canonical entry for `id` survives every later loop iteration. -/
theorem loopFold_errors_preserve (pol : TerminateRunPolicy)
    (terminate : String → TerminateRunPolicy → Option TerminateMutation)
    (runList : List String) :
    ∀ (rs : TerminationDialogState) (id : String),
      getKey rs.termination.errors id = some (errorValue (terminate id pol)) →
      getKey (loopFold pol terminate runList rs).termination.errors id =
        some (errorValue (terminate id pol)) := by
  induction runList with
  | nil => intro rs id h; simpa [loopFold] using h
  | cons runId rest ih =>
      intro rs id h
      rw [loopFold, List.foldl_cons]
      refine ih _ id ?_
      unfold loopAction terminateAction
      by_cases hs : isTerminateRunSuccess (terminate runId pol) = true
      · simpa [hs, terminationDialogReducer] using h
      · simp only [hs, Bool.false_eq_true, if_false, terminationDialogReducer]
        by_cases hid : id = runId
        · subst hid
          simp [getKey_setKey_self]
        · simpa [getKey_setKey_ne _ _ _ _ hid] using h

/-- A run id whose backend call is not a success gets its canonical error
entry recorded by the loop, whatever its position in the batch. -/
theorem loopFold_errors_mem (pol : TerminateRunPolicy)
    (terminate : String → TerminateRunPolicy → Option TerminateMutation)
    (runList : List String) :
    ∀ (rs : TerminationDialogState) (id : String), id ∈ runList →
      isTerminateRunSuccess (terminate id pol) = false →
      getKey (loopFold pol terminate runList rs).termination.errors id =
        some (errorValue (terminate id pol)) := by
  induction runList with
  | nil => intro rs id h; exact absurd h (List.not_mem_nil id)
  | cons runId rest ih =>
      intro rs id hmem hfail
      rw [loopFold, List.foldl_cons]
      rcases List.mem_cons.mp hmem with heq | htl
      · subst heq
        refine loopFold_errors_preserve pol terminate rest _ id ?_
        unfold loopAction terminateAction
        simp [hfail, terminationDialogReducer, getKey_setKey_self]
      · exact ih _ id htl hfail

/-- A run id whose backend call is a success never acquires an error entry
during the loop. -/
theorem loopFold_errors_none (pol : TerminateRunPolicy)
    (terminate : String → TerminateRunPolicy → Option TerminateMutation)
    (runList : List String) :
    ∀ (rs : TerminationDialogState) (id : String),
      isTerminateRunSuccess (terminate id pol) = true →
      getKey rs.termination.errors id = none →
      getKey (loopFold pol terminate runList rs).termination.errors id = none := by
  induction runList with
  | nil => intro rs id _ h; simpa [loopFold] using h
  | cons runId rest ih =>
      intro rs id hok h
      rw [loopFold, List.foldl_cons]
      refine ih _ id hok ?_
      unfold loopAction terminateAction
      by_cases hs : isTerminateRunSuccess (terminate runId pol) = true
      · simpa [hs, terminationDialogReducer] using h
      · simp only [hs, Bool.false_eq_true, if_false, terminationDialogReducer]
        by_cases hid : id = runId
        · subst hid; exact absurd hok (by simp [hs])
        · simpa [getKey_setKey_ne _ _ _ _ hid] using h

/-- Every loop iteration dispatches either `terminationSuccess` or
`terminationError`, and both increment `completed` by one. -/
theorem loopFold_completed (pol : TerminateRunPolicy)
    (terminate : String → TerminateRunPolicy → Option TerminateMutation)
    (runList : List String) :
    ∀ rs : TerminationDialogState,
      (loopFold pol terminate runList rs).termination.completed =
        rs.termination.completed + runList.length := by
  induction runList with
  | nil => intro rs; simp [loopFold]
  | cons runId rest ih =>
      intro rs
      rw [loopFold, List.foldl_cons]
      have := ih (terminationDialogReducer rs (loopAction pol terminate runId))
      rw [loopFold] at this
      rw [this]
      unfold loopAction terminateAction
      by_cases hs : isTerminateRunSuccess (terminate runId pol) = true <;>
        simp [hs, terminationDialogReducer, List.length_cons] <;> omega

/-- C1 (counterexample): the claim says that whenever at least one selected
run id maps to false, the initial state has `mustForce = true`.  On the map
that sends "a" to false and "b" to true, at least one run id maps to false,
yet `initializeState` sets `mustForce` to false: `mustForce` is the negation
of "some run can terminate", not of "every run can terminate". -/
theorem C1_counterexample :
    (∃ p ∈ ([("a", false), ("b", true)] : SelectedRuns), p.2 = false) ∧
    (initializeState [("a", false), ("b", true)]).mustForce = false :=
  ⟨⟨("a", false), by decide, rfl⟩, by rfl⟩

/-- C1 (amended): the initial state has `mustForce = true` exactly when no
selected run id maps to true, i.e. every selected run lacks
cooperative-termination capability (in particular when the map is empty). -/
theorem C1_mustForce_iff_no_terminable (selectedRuns : SelectedRuns) :
    (initializeState selectedRuns).mustForce = true ↔
      ∀ p ∈ selectedRuns, p.2 = false := by
  simp [initializeState]

/-- C2 (code divergence): on a one-run batch whose terminate mutation
returns `TerminateRunSuccess`, the reducer state after `mutate` aggregates
the batch outcome (completed one, no errors), but the value passed to
`onComplete` is the closure-captured `state.termination` from before the
batch started: completed zero and an empty error map — not the aggregated
outcome the claim describes. -/
theorem C2_onComplete_gets_stale_termination :
    mutate (initializeState [("r1", true)]) (fun _ _ => some terminateRunSuccessData) =
      Except.ok
        ({ mustForce := false
           frozenRuns := [("r1", true)]
           step := Step.completed
           termination := { completed := 1, errors := [] } },
         [("r1", TerminateRunPolicy.SAFE_TERMINATE)],
         { completed := 0, errors := [] }) := by
  rfl

/-- C6: under the dialog reducer, a `termination-success` or
`termination-error` action increases `termination.completed` by exactly one
and every other non-reset action leaves it unchanged; consequently, over any
sequence of actions not containing `reset`, the completed counter never
decreases. -/
theorem C6_completed_monotone :
    (∀ (s : TerminationDialogState) (a : TerminationDialogAction),
        isResetAction a = false →
        (terminationDialogReducer s a).termination.completed =
          s.termination.completed + completedIncrement a) ∧
    (∀ (s : TerminationDialogState) (actions : List TerminationDialogAction),
        (∀ a ∈ actions, isResetAction a = false) →
        s.termination.completed ≤
          (actions.foldl terminationDialogReducer s).termination.completed) := by
  have hstep : ∀ (s : TerminationDialogState) (a : TerminationDialogAction),
      isResetAction a = false →
      (terminationDialogReducer s a).termination.completed =
        s.termination.completed + completedIncrement a := by
    intro s a h
    cases a <;> simp [terminationDialogReducer, completedIncrement] <;>
      simp [isResetAction] at h
  refine ⟨hstep, ?_⟩
  intro s actions
  induction actions generalizing s with
  | nil => intro _; simp
  | cons a rest ih =>
      intro h
      have ha := hstep s a (h a (List.mem_cons_self a rest))
      have hrest := ih (terminationDialogReducer s a)
        (fun a' ha' => h a' (List.mem_cons_of_mem a ha'))
      calc s.termination.completed
          ≤ (terminationDialogReducer s a).termination.completed := by omega
        _ ≤ _ := by simpa [List.foldl_cons] using hrest

/-- C6 (witness): concrete instances of both parts of the monotonicity
statement. -/
theorem C6_witness :
    ((terminationDialogReducer (initializeState [("a", true)])
        TerminationDialogAction.terminationSuccess).termination.completed =
      (initializeState [("a", true)]).termination.completed +
        completedIncrement TerminationDialogAction.terminationSuccess) ∧
    (initializeState [("a", true)]).termination.completed ≤
      ([TerminationDialogAction.start,
        TerminationDialogAction.terminationSuccess].foldl terminationDialogReducer
          (initializeState [("a", true)])).termination.completed :=
  ⟨C6_completed_monotone.1 _ _ (by decide), C6_completed_monotone.2 _ _ (by decide)⟩

/-- C9: every non-reset reducer action leaves `frozenRuns` unchanged: the
batch membership is fixed at (re)initialization. -/
theorem C9_frozenRuns_frame (s : TerminationDialogState) (a : TerminationDialogAction)
    (h : isResetAction a = false) :
    (terminationDialogReducer s a).frozenRuns = s.frozenRuns := by
  cases a <;> simp [terminationDialogReducer, initializeState] <;>
    simp [isResetAction] at h

/-- C9 (witness): the `start` action preserves `frozenRuns` on a concrete
state. -/
theorem C9_witness :
    (terminationDialogReducer (initializeState [("a", true)])
      TerminationDialogAction.start).frozenRuns =
      (initializeState [("a", true)]).frozenRuns :=
  C9_frozenRuns_frame _ _ (by decide)

/-- C10: under the guard of the else branch of `mutate` (the mutation result
is not `TerminateRunSuccess`), `refineToError` never reaches its throw: it
returns the non-success payload, or `undefined` when the mutation returned
no data; consequently the dispatched loop step is the corresponding
`termination-error` action, never an exception. -/
theorem C10_refineToError_no_throw (runId : String) (data : Option TerminateMutation)
    (h : isTerminateRunSuccess data = false) :
    refineToError data = Except.ok (errorValue data) ∧
    terminateStep runId data =
      Except.ok (TerminationDialogAction.terminationError runId (errorValue data)) := by
  constructor
  · cases data with
    | none => rfl
    | some d =>
        simp only [isTerminateRunSuccess] at h
        unfold refineToError errorValue
        simp [h]
  · rw [terminateStep_eq_ok]
    unfold terminateAction
    simp [h]

/-- C10 (witness): a mutation that returned no data is refined to
`undefined` without throwing. -/
theorem C10_witness :
    refineToError none = Except.ok (errorValue none) ∧
    terminateStep "r" none =
      Except.ok (TerminationDialogAction.terminationError "r" (errorValue none)) :=
  C10_refineToError_no_throw "r" none (by rfl)

/-- C4: `mutate` issues exactly one backend call per frozen run id, in the
iteration order of the frozen run set, and every call in the batch uses the
single policy chosen from `mustForce`: `MARK_AS_CANCELED_IMMEDIATELY` when
`mustForce` is true, `SAFE_TERMINATE` otherwise; no two runs of one batch
are terminated with different policies. -/
theorem C4_sequential_single_policy (state : TerminationDialogState)
    (terminate : String → TerminateRunPolicy → Option TerminateMutation)
    (rsFin : TerminationDialogState) (trace : List (String × TerminateRunPolicy))
    (onCompleteArg : TerminationState)
    (h : mutate state terminate = Except.ok (rsFin, trace, onCompleteArg)) :
    trace.map Prod.fst = state.frozenRuns.map Prod.fst ∧
    ∀ c ∈ trace,
      c.2 = (if state.mustForce then TerminateRunPolicy.MARK_AS_CANCELED_IMMEDIATELY
        else TerminateRunPolicy.SAFE_TERMINATE) := by
  rw [mutate_eq_ok] at h
  simp only [Except.ok.injEq, Prod.mk.injEq] at h
  obtain ⟨-, htrace, -⟩ := h
  subst htrace
  constructor
  · simp [List.map_map]
  · intro c hc
    simp only [List.mem_map] at hc
    obtain ⟨p, -, rfl⟩ := hc
    simp [policy]

/-- C4 (witness): a one-run batch of a run that cannot safe-terminate is
called once with the forcing policy. -/
theorem C4_witness :
    ([("a", TerminateRunPolicy.MARK_AS_CANCELED_IMMEDIATELY)].map Prod.fst =
      exState1.frozenRuns.map Prod.fst) ∧
    ∀ c ∈ [("a", TerminateRunPolicy.MARK_AS_CANCELED_IMMEDIATELY)],
      c.2 = (if exState1.mustForce then TerminateRunPolicy.MARK_AS_CANCELED_IMMEDIATELY
        else TerminateRunPolicy.SAFE_TERMINATE) :=
  C4_sequential_single_policy exState1 exTerminateNone exFin1
    [("a", TerminateRunPolicy.MARK_AS_CANCELED_IMMEDIATELY)]
    { completed := 0, errors := [] } (by rfl)

/-- C5: a non-success terminate result never aborts the batch: the backend
call trace covers every frozen run id, and each run id whose mutation did
not return `TerminateRunSuccess` ends with its error detail recorded in the
errors map of the reducer state after `mutate`. -/
theorem C5_failure_recorded_batch_continues (state : TerminationDialogState)
    (terminate : String → TerminateRunPolicy → Option TerminateMutation)
    (rsFin : TerminationDialogState) (trace : List (String × TerminateRunPolicy))
    (onCompleteArg : TerminationState)
    (h : mutate state terminate = Except.ok (rsFin, trace, onCompleteArg)) :
    trace.length = state.frozenRuns.length ∧
    ∀ p ∈ state.frozenRuns,
      isTerminateRunSuccess (terminate p.1 (policy state)) = false →
      getKey rsFin.termination.errors p.1 =
        some (errorValue (terminate p.1 (policy state))) := by
  rw [mutate_eq_ok] at h
  simp only [Except.ok.injEq, Prod.mk.injEq] at h
  obtain ⟨hfin, htrace, -⟩ := h
  constructor
  · rw [← htrace]
    simp
  · intro p hp hfail
    rw [← hfin]
    have hmem : p.1 ∈ state.frozenRuns.map Prod.fst :=
      List.mem_map_of_mem Prod.fst hp
    simpa [terminationDialogReducer] using
      loopFold_errors_mem (policy state) terminate (state.frozenRuns.map Prod.fst)
        (terminationDialogReducer state TerminationDialogAction.start) p.1 hmem hfail

/-- C5 (witness): a one-run batch whose terminate call is refused records
the refusal under the run id and still processes the whole batch. -/
theorem C5_witness :
    (([("b", TerminateRunPolicy.SAFE_TERMINATE)] :
        List (String × TerminateRunPolicy)).length = exState2.frozenRuns.length) ∧
    getKey exFin2.termination.errors "b" =
      some (errorValue (exTerminateFail "b" (policy exState2))) :=
  ⟨(C5_failure_recorded_batch_continues exState2 exTerminateFail exFin2
      [("b", TerminateRunPolicy.SAFE_TERMINATE)] { completed := 0, errors := [] }
      (by rfl)).1,
   (C5_failure_recorded_batch_continues exState2 exTerminateFail exFin2
      [("b", TerminateRunPolicy.SAFE_TERMINATE)] { completed := 0, errors := [] }
      (by rfl)).2 ("b", true) (by decide) (by rfl)⟩

/-- C3: with the spec-modelled backend (termination of an already-terminal
run is surfaced as a no-op success), a run id that is already terminal
contributes no entry to the errors map, whatever its position in the batch,
and the completed count of the batch includes it: after `mutate` on a
freshly initialized dialog the reducer's completed count equals the whole
batch size. -/
theorem C3_already_terminal_recorded_success (selectedRuns : SelectedRuns)
    (statusOf : String → RunStatus)
    (live : String → TerminateRunPolicy → Option TerminateMutation)
    (rsFin : TerminationDialogState) (trace : List (String × TerminateRunPolicy))
    (onCompleteArg : TerminationState) (runId : String)
    (h : mutate (initializeState selectedRuns) (backendTerminate statusOf live) =
      Except.ok (rsFin, trace, onCompleteArg))
    (hmem : runId ∈ selectedRuns.map Prod.fst)
    (hterm : (statusOf runId).isTerminal = true) :
    getKey rsFin.termination.errors runId = none ∧
    rsFin.termination.completed = selectedRuns.length := by
  rw [mutate_eq_ok] at h
  simp only [Except.ok.injEq, Prod.mk.injEq] at h
  obtain ⟨hfin, -, -⟩ := h
  have hsucc : isTerminateRunSuccess
      (backendTerminate statusOf live runId
        (policy (initializeState selectedRuns))) = true := by
    simp [backendTerminate, hterm, isTerminateRunSuccess, terminateRunSuccessData]
  constructor
  · rw [← hfin]
    simpa [terminationDialogReducer] using
      loopFold_errors_none (policy (initializeState selectedRuns))
        (backendTerminate statusOf live)
        ((initializeState selectedRuns).frozenRuns.map Prod.fst)
        (terminationDialogReducer (initializeState selectedRuns)
          TerminationDialogAction.start)
        runId hsucc (by rfl)
  · rw [← hfin]
    have := loopFold_completed (policy (initializeState selectedRuns))
      (backendTerminate statusOf live)
      ((initializeState selectedRuns).frozenRuns.map Prod.fst)
      (terminationDialogReducer (initializeState selectedRuns)
        TerminationDialogAction.start)
    simpa [terminationDialogReducer, initializeState] using this

/-- C3 (witness): a one-run batch whose run is already in SUCCESS completes
with no error entry and a completed count of one. -/
theorem C3_witness :
    getKey exFin3.termination.errors "s" = none ∧
    exFin3.termination.completed = ([("s", false)] : SelectedRuns).length :=
  C3_already_terminal_recorded_success [("s", false)] exStatusTerminal exTerminateNone
    exFin3 [("s", TerminateRunPolicy.MARK_AS_CANCELED_IMMEDIATELY)]
    { completed := 0, errors := [] } "s" (by rfl) (by decide) (by rfl)

theorem reserveFits_iff (config : QueuedRunCoordinatorConfig) (st : LedgerCounters)
    (tags : List (String × String)) :
    reserveFits config st tags = true ↔
      (st.globalCount + 1 ≤ config.max_concurrent_runs ∧
        ∀ p ∈ config.tag_concurrency_limits.zip st.tagCounts,
          limitApplies p.1 tags = true → p.2 + 1 ≤ p.1.limit) := by
  unfold reserveFits
  simp only [Bool.and_eq_true, List.all_eq_true, Bool.or_eq_true, Bool.not_eq_true',
    decide_eq_true_eq]
  constructor
  · rintro ⟨h1, h2⟩
    refine ⟨h1, fun p hp ha => ?_⟩
    rcases h2 p hp with hfalse | hle
    · exact absurd ha (by simp [hfalse])
    · exact hle
  · rintro ⟨h1, h2⟩
    refine ⟨h1, fun p hp => ?_⟩
    by_cases ha : limitApplies p.1 tags = true
    · exact Or.inr (h2 p hp ha)
    · exact Or.inl (by simpa using ha)

/-- C8: the spec-modelled Concurrency Ledger `reserve` succeeds exactly when
the incremented global counter and every incremented applicable tag counter
would still fit under their configured limits, and a rejected reservation
leaves the ledger counters exactly unchanged: the check runs over all
limits before any counter is committed. -/
theorem C8_reserve_atomic_check_then_commit (config : QueuedRunCoordinatorConfig)
    (st : LedgerCounters) (tags : List (String × String)) :
    ((reserve config st tags).1 = true ↔
      (st.globalCount + 1 ≤ config.max_concurrent_runs ∧
        ∀ p ∈ config.tag_concurrency_limits.zip st.tagCounts,
          limitApplies p.1 tags = true → p.2 + 1 ≤ p.1.limit)) ∧
    ((reserve config st tags).1 = false → (reserve config st tags).2 = st) := by
  constructor
  · rw [← reserveFits_iff]
    unfold reserve
    by_cases hf : reserveFits config st tags <;> simp [hf]
  · intro hfalse
    unfold reserve at hfalse ⊢
    by_cases hf : reserveFits config st tags <;> simp [hf] at hfalse ⊢

/-- C8 (witness): with the global limit already saturated, `reserve` rejects
and the counters are unchanged. -/
theorem C8_witness :
    (reserve exConfig exCounters exTags).1 = false ∧
    (reserve exConfig exCounters exTags).2 = exCounters :=
  ⟨by rfl, (C8_reserve_atomic_check_then_commit exConfig exCounters exTags).2 (by rfl)⟩

/-- C7: a retention policy normalizes from a single scalar (the threshold of
every tick type) or a per-type mapping; under the mapping sending skipped to
7, failure to 30 and success to -1, the sweeper purges a skipped tick aged 8
days, retains a failure tick aged 10 days, and never purges a success tick
at any age (-1 exempts the type). -/
theorem C7_retention_policy :
    (∀ (d : Int) (t : TickStatusKey),
        normalizeRetention (PurgeAfterDays.scalar d) t = d) ∧
    shouldPurgeTick (PurgeAfterDays.perType 7 30 (-1)) TickStatusKey.skipped 8 = true ∧
    shouldPurgeTick (PurgeAfterDays.perType 7 30 (-1)) TickStatusKey.failure 10 = false ∧
    ∀ age : Int,
      shouldPurgeTick (PurgeAfterDays.perType 7 30 (-1)) TickStatusKey.success age =
        false := by
  refine ⟨fun d t => by cases t <;> rfl, by decide, by decide, fun age => ?_⟩
  simp [shouldPurgeTick, normalizeRetention]

end Dagster
